import Mathlib

/-!
Verification development for the sessionization engine in
src/src/sessionization.py.

The Python program is embedded shallowly:

* a CPython datetime parsed by strptime with the fixed format
  YYYY-MM-DD HH:MM:SS is represented by its total number of seconds in the
  proleptic Gregorian calendar (an Int); this representation is injective
  and order-preserving, and datetime subtraction is subtraction of these
  numbers, so all comparisons and timedelta computations of the source are
  preserved;
* a Python timedelta value d produced by subtracting two such datetimes is
  determined by the Int difference t; its d.seconds attribute is t % 86400
  with the sign convention of Python (result in [0, 86400)), which is the
  emod convention of Int;
* the Python dict active_users is an insertion-ordered association list,
  matching the iteration and update behaviour the program relies on;
* the output file object is the list of records written so far, and the
  warnings channel is the count of warnings issued so far (each skipped
  line issues exactly one warning with a distinct message);
* exceptions caught by the try/except of parse_requests are Option values:
  every helper that can raise returns an Option, and the except branch of
  the source corresponds to the none branches below, which keep whatever
  mutations had already happened and add one warning.
-/

namespace Sessionization

/-- Numeric value of a decimal digit character. -/
def digitVal (c : Char) : Nat := c.toNat - '0'.toNat

/-- Whitespace characters matched by the regex class for whitespace in
CPython strptime (space, tab, newline, carriage return, vertical tab,
form feed). -/
def isWs (c : Char) : Bool :=
  c == ' ' || c == '\t' || c == '\n' || c == '\r' || c == '\x0b' || c == '\x0c'

/-- Splitting of a character list on a delimiter character, with the
semantics of the Python str.split(delim) call used in parse_requests:
adjacent delimiters produce empty fields and the empty input yields one
empty field. -/
def splitCharsAux (delim : Char) : List Char → List Char → List (List Char)
  | [], acc => [acc.reverse]
  | c :: rest, acc =>
    if c = delim then acc.reverse :: splitCharsAux delim rest []
    else splitCharsAux delim rest (c :: acc)

/-- Python str.split with a one-character delimiter (the program always
calls split with a one-character delimiter string). -/
def pySplit (delim : Char) (s : String) : List String :=
  (splitCharsAux delim s.data []).map fun cs => String.mk cs

/-- Leap-year test of the Gregorian calendar, as in Python's calendar. -/
def isLeap (y : Nat) : Bool := (y % 4 == 0 && y % 100 != 0) || y % 400 == 0

/-- Number of days in a month, as validated by the datetime constructor. -/
def daysInMonth (y m : Nat) : Nat :=
  if m = 2 then (if isLeap y then 29 else 28)
  else if m = 4 ∨ m = 6 ∨ m = 9 ∨ m = 11 then 30
  else 31

/-- Number of days in the months strictly before month m of year y. -/
def daysBeforeMonth (y m : Nat) : Nat :=
  let base :=
    match m with
    | 1 => 0 | 2 => 31 | 3 => 59 | 4 => 90 | 5 => 120 | 6 => 151
    | 7 => 181 | 8 => 212 | 9 => 243 | 10 => 273 | 11 => 304 | _ => 334
  if 3 ≤ m ∧ isLeap y then base + 1 else base

/-- Number of days strictly before January 1 of year y in the proleptic
Gregorian calendar (the toordinal computation of Python datetime, shifted
by one). -/
def daysBeforeYear (y : Nat) : Nat :=
  365 * (y - 1) + (y - 1) / 4 - (y - 1) / 100 + (y - 1) / 400

/-- Total seconds of a datetime value: the shallow representation of the
datetime object built by strptime. -/
def toSeconds (y m d h mi s : Nat) : Int :=
  ((daysBeforeYear y + daysBeforeMonth y m + (d - 1)) * 86400
    + h * 3600 + mi * 60 + s : Nat)

/-- Parsing of the %Y directive: exactly four decimal digits. -/
def parseY : List Char → Option (Nat × List Char)
  | a :: b :: c :: d :: rest =>
    if a.isDigit && b.isDigit && c.isDigit && d.isDigit then
      some (1000 * digitVal a + 100 * digitVal b + 10 * digitVal c + digitVal d, rest)
    else none
  | _ => none

/-- Parsing of a one-or-two digit numeric directive of CPython strptime.
Each such directive in the format YYYY-MM-DD HH:MM:SS is followed by a
non-digit (a separator or the end of the data), so the ordered regex
alternation of CPython collapses to: if two digits are present they must
match a two-digit alternative (predicate ok2), otherwise a single digit
must match a one-digit alternative (predicate ok1). -/
def parse2or1 (ok2 ok1 : Nat → Bool) : List Char → Option (Nat × List Char)
  | a :: b :: rest =>
    if a.isDigit && b.isDigit then
      let v := 10 * digitVal a + digitVal b
      if ok2 v then some (v, rest) else none
    else if a.isDigit then
      (if ok1 (digitVal a) then some (digitVal a, b :: rest) else none)
    else none
  | [a] => if a.isDigit && ok1 (digitVal a) then some (digitVal a, []) else none
  | [] => none

/-- Literal character in the format string. -/
def parseLit (c : Char) : List Char → Option (List Char)
  | x :: rest => if x = c then some rest else none
  | [] => none

/-- Consumption of leading whitespace, stopping at the first
non-whitespace character. -/
def skipWs : List Char → List Char
  | [] => []
  | x :: rest => if isWs x then skipWs rest else x :: rest

/-- Whitespace in the format string matches one or more whitespace
characters in the data. -/
def parseWs1 : List Char → Option (List Char)
  | x :: rest => if isWs x then some (skipWs rest) else none
  | [] => none

/-- Validation performed by the datetime constructor after the regex
match: year in range (four digits can produce year 0, which is below
MINYEAR), day within the month, and seconds at most 59 (the %S regex
admits leap seconds 60 and 61, which the constructor then rejects). -/
def mkDatetime (y m d h mi s : Nat) : Option Int :=
  if 1 ≤ y ∧ d ≤ daysInMonth y m ∧ s ≤ 59 then some (toSeconds y m d h mi s)
  else none

/-- CPython datetime.strptime with format YYYY-MM-DD HH:MM:SS on the
given characters, requiring the whole input to be consumed (the
unconverted-data check of strptime), returning the total-seconds
representation of the resulting datetime. Digit-range alternatives follow
the TimeRE table of CPython: month 1-12, day 1-31, hour 0-23, minute
0-59, second 0-61. -/
def strptimeChars (cs : List Char) : Option Int := do
  let (y, r1) ← parseY cs
  let r2 ← parseLit '-' r1
  let (m, r3) ← parse2or1 (fun v => 1 ≤ v && v ≤ 12) (fun v => 1 ≤ v) r2
  let r4 ← parseLit '-' r3
  let (d, r5) ← parse2or1 (fun v => 1 ≤ v && v ≤ 31) (fun v => 1 ≤ v) r4
  let r6 ← parseWs1 r5
  let (h, r7) ← parse2or1 (fun v => v ≤ 23) (fun _ => true) r6
  let r8 ← parseLit ':' r7
  let (mi, r9) ← parse2or1 (fun v => v ≤ 59) (fun _ => true) r8
  let r10 ← parseLit ':' r9
  let (s, r11) ← parse2or1 (fun v => v ≤ 61) (fun _ => true) r10
  if r11 = [] then mkDatetime y m d h mi s else none

/-- strptime on a string. -/
def strptime (s : String) : Option Int := strptimeChars s.data

/-- Python timedelta.seconds of the timedelta obtained by subtracting two
integral-second datetimes whose difference is t seconds: the timedelta is
normalized so that its seconds attribute lies in [0, 86400), hence it is
t mod 86400 with a non-negative result, the emod convention of Int. -/
def timedelta_seconds (t : Int) : Int := t % 86400

/-- User object of sessionization.py: one active session of one client. -/
structure User where
  lid : Nat
  ip : String
  start_time : Int
  latest_time : Int
  num_docs : Nat
deriving DecidableEq, Repr

/-- Structural IP validation of User.__init__: exactly four dot-separated
components, each 1 to 3 characters long. -/
def validIp (ip : String) : Bool :=
  let parts := pySplit '.' ip
  parts.length == 4 && parts.all fun x => decide (1 ≤ x.length) && decide (x.length ≤ 3)

/-- Constructor User(lid, ip, start_time): initializes latest_time to
start_time and num_docs to 1, raising (none) when the IP is structurally
invalid. The isinstance checks on start_time and lid always pass in this
embedding, where start_time is a datetime value and lid an integer by
type. -/
def User.create (lid : Nat) (ip : String) (start_time : Int) : Option User :=
  if validIp ip then
    some { lid := lid, ip := ip, start_time := start_time,
           latest_time := start_time, num_docs := 1 }
  else none

/-- User.update(time): raises (none) when time precedes start_time,
otherwise stores time as latest_time and increments num_docs. -/
def User.update (u : User) (time : Int) : Option User :=
  if time < u.start_time then none
  else some { u with latest_time := time, num_docs := u.num_docs + 1 }

/-- User.session_length: 1 plus the seconds attribute of the timedelta
latest_time - start_time. -/
def User.session_length (u : User) : Int :=
  1 + timedelta_seconds (u.latest_time - u.start_time)

/-- Record written by User.session_info: ip, start time, latest time,
session length, document count. Timestamps are kept in the total-seconds
representation; strftime rendering is a bijection on the representable
range, so equality of records models byte equality of output lines. -/
structure SessionRec where
  ip : String
  start_time : Int
  latest_time : Int
  session_length : Int
  num_docs : Nat
deriving DecidableEq, Repr

/-- User.session_info as a record value. -/
def User.session_info (u : User) : SessionRec :=
  { ip := u.ip, start_time := u.start_time, latest_time := u.latest_time,
    session_length := u.session_length, num_docs := u.num_docs }

/-- Column layout stored in self.fields. -/
structure Fields where
  ip : Nat
  date : Nat
  time : Nat
deriving DecidableEq, Repr

/-- Value found in a user-supplied fields dictionary: an instance of int,
or a value of any other type. -/
inductive PyVal where
  | int (n : Int)
  | other
deriving DecidableEq, Repr

/-- User-supplied fields argument: each of the three required keys is
present with some value, or missing (a missing key raises KeyError inside
the all(...) check, which the bare except of __init__ turns into the
fields error). -/
structure FieldsArg where
  ip : Option PyVal
  date : Option PyVal
  time : Option PyVal
deriving DecidableEq, Repr

/-- Test whether one dictionary entry is present and an instance of int. -/
def isIntVal : Option PyVal → Bool
  | some (.int _) => true
  | _ => false

/-- Validation applied by __init__ to a non-None fields argument. -/
def validFieldsArg (fa : FieldsArg) : Bool :=
  isIntVal fa.ip && isIntVal fa.date && isIntVal fa.time

/-- State of a SessionParser object, together with the output sink (the
records written so far) and the warnings channel (count of warnings
issued). The fields component is an Option because __init__ assigns
self.fields only in its default branch; when a caller supplies a fields
dictionary, self.fields is never assigned and later attribute access
raises. -/
structure SessionParser where
  active_users : List (String × User)
  current_time : Option Int
  line_id : Nat
  inactivity_period : Int
  fields : Option Fields
  output : List SessionRec
  warnings : Nat
deriving DecidableEq, Repr

/-- SessionParser.__init__(output, inactivity_period, fields) for an
integer inactivity_period (int(n) succeeds on every integer, positive or
negative) and an optional fields dictionary. With fields=None the default
layout 0,1,2 is stored; with a supplied dictionary the three keys are
checked to be present and ints, but the validated dictionary is never
assigned to self.fields. -/
def SessionParser.init (inactivity_period : Int) (fieldsArg : Option FieldsArg) :
    Except String SessionParser :=
  match fieldsArg with
  | none =>
    .ok { active_users := [], current_time := none, line_id := 0,
          inactivity_period := inactivity_period,
          fields := some { ip := 0, date := 1, time := 2 },
          output := [], warnings := 0 }
  | some fa =>
    if validFieldsArg fa then
      .ok { active_users := [], current_time := none, line_id := 0,
            inactivity_period := inactivity_period,
            fields := none, output := [], warnings := 0 }
    else .error "fields must contain integer column numbers for ip, date and time"

/-- Fresh engine produced by construction with the default field layout. -/
def mkDefault (inactivity_period : Int) : SessionParser :=
  { active_users := [], current_time := none, line_id := 0,
    inactivity_period := inactivity_period,
    fields := some { ip := 0, date := 1, time := 2 },
    output := [], warnings := 0 }

/-- Sort key comparison of _write_session_info: the Python tuple
(start_time, lid) compared lexicographically, a total preorder. -/
def keyLe (a b : User) : Prop :=
  a.start_time < b.start_time ∨ (a.start_time = b.start_time ∧ a.lid ≤ b.lid)

instance : DecidableRel keyLe := fun a b => by
  unfold keyLe
  infer_instance

instance : IsTotal User keyLe :=
  ⟨fun a b => by
    unfold keyLe
    rcases lt_trichotomy a.start_time b.start_time with h | h | h
    · exact Or.inl (Or.inl h)
    · rcases Nat.le_total a.lid b.lid with h2 | h2
      · exact Or.inl (Or.inr ⟨h, h2⟩)
      · exact Or.inr (Or.inr ⟨h.symm, h2⟩)
    · exact Or.inr (Or.inl h)⟩

instance : IsTrans User keyLe :=
  ⟨fun a b c hab hbc => by
    unfold keyLe at *
    rcases hab with h1 | ⟨h1, h1l⟩ <;> rcases hbc with h2 | ⟨h2, h2l⟩
    · exact Or.inl (h1.trans h2)
    · exact Or.inl (h2 ▸ h1)
    · exact Or.inl (h1 ▸ h2)
    · exact Or.inr ⟨h1.trans h2, h1l.trans h2l⟩⟩

/-- Stable sort of sessions by (start_time, lid). Python list.sort is a
stable sort; insertion sort inserting each element before the first
element it compares at-most-equal to, processing from the right, is
stable for this total preorder, so it models the sort faithfully. -/
def sortSessions (l : List User) : List User := l.insertionSort keyLe

/-- SessionParser._write_session_info: sort the sessions by
(start_time, lid) and append their records to the output. -/
def SessionParser.write_session_info (sp : SessionParser) (sessions : List User) :
    SessionParser :=
  { sp with output := sp.output ++ (sortSessions sessions).map User.session_info }

/-- Expiry test of _detect_terminated_sessions: the seconds attribute of
the timedelta current_time - latest_time exceeds the inactivity period. -/
def session_expired (inactivity_period ct : Int) (u : User) : Bool :=
  inactivity_period < timedelta_seconds (ct - u.latest_time)

/-- SessionParser._detect_terminated_sessions, with ct the value of
self.current_time at the call: remove every expired user from
active_users and write their session records. The source loops over
self.active_users.keys() and pops expired entries inside the loop; in
the Python 2 dialect this program targets, keys() returns a fresh list,
so the loop visits every user once and the pops amount to this filter
(under Python 3 the same loop would raise for mutating the dict during
iteration, contradicting the documented behaviour of the program). -/
def SessionParser.detect_terminated_sessions (sp : SessionParser) (ct : Int) :
    SessionParser :=
  let terminated :=
    (sp.active_users.filter fun p => session_expired sp.inactivity_period ct p.2).map Prod.snd
  SessionParser.write_session_info
    { sp with active_users :=
        sp.active_users.filter fun p => ! session_expired sp.inactivity_period ct p.2 }
    terminated

/-- SessionParser.terminate_remaining_sessions: remove every user and
write all their session records. -/
def SessionParser.terminate_remaining_sessions (sp : SessionParser) : SessionParser :=
  SessionParser.write_session_info { sp with active_users := [] }
    (sp.active_users.map Prod.snd)

/-- Condition under which parse_requests invokes
_detect_terminated_sessions for a successfully parsed timestamp dtime:
with no previous current_time the delta is the zero timedelta, otherwise
the delta is dtime minus the previous current_time, and the check is that
the seconds attribute of this delta is strictly positive. -/
def eviction_triggered (prev : Option Int) (dtime : Int) : Bool :=
  match prev with
  | none => false
  | some ct => 0 < timedelta_seconds (dtime - ct)

/-- Lookup of a client key in active_users (the membership test and
subscript on the dict). -/
def lookupUser : List (String × User) → String → Option User
  | [], _ => none
  | (k, u) :: rest, uip => if k = uip then some u else lookupUser rest uip

/-- In-place replacement of the User object stored under an existing key
(the source mutates the object found in the dict, keeping its position). -/
def updateUser : List (String × User) → String → User → List (String × User)
  | [], _, _ => []
  | (k, u) :: rest, uip, u2 =>
    if k = uip then (k, u2) :: rest else (k, u) :: updateUser rest uip u2

/-- Field extraction and timestamp parsing of one line: split on the
delimiter, select the ip, date and time columns (IndexError when a column
is missing), and run strptime on date + space + time. -/
def extract_record (f : Fields) (delim : Char) (line : String) :
    Option (String × Int) :=
  let args := pySplit delim line
  match args.get? f.ip, args.get? f.date, args.get? f.time with
  | some uip, some date, some time =>
    match strptime (date ++ " " ++ time) with
    | some t => some (uip, t)
    | none => none
  | _, _, _ => none

/-- Recording of one warning on the diagnostics channel (each failed line
issues exactly one warning whose message contains the line id). -/
def SessionParser.warn (sp : SessionParser) : SessionParser :=
  { sp with warnings := sp.warnings + 1 }

/-- Session create-or-update step of parse_requests for a successfully
parsed record: update the active user under this key if present (a
failing update raises and becomes a warning), otherwise create a user
with the current line id (a failing creation raises and becomes a
warning; the failed object is never inserted). -/
def SessionParser.user_step (sp : SessionParser) (uip : String) (dtime : Int) :
    SessionParser :=
  match lookupUser sp.active_users uip with
  | some u =>
    match u.update dtime with
    | some u2 => { sp with active_users := updateUser sp.active_users uip u2 }
    | none => sp.warn
  | none =>
    match User.create sp.line_id uip dtime with
    | some u => { sp with active_users := sp.active_users ++ [(uip, u)] }
    | none => sp.warn

/-- Body of the per-line try block of parse_requests: a missing
self.fields attribute or any extraction failure warns and leaves the
state alone; on a parsed record the current time is advanced first, the
eviction pass runs if the delta condition holds, and the create-or-update
step follows, whose failure warns while keeping the mutations already
made. -/
def SessionParser.parse_line_body (sp : SessionParser) (line : String) (delim : Char) :
    SessionParser :=
  match sp.fields with
  | none => sp.warn
  | some f =>
    match extract_record f delim line with
    | none => sp.warn
    | some (uip, dtime) =>
      let sp1 := { sp with current_time := some dtime }
      let sp2 :=
        if eviction_triggered sp.current_time dtime then
          sp1.detect_terminated_sessions dtime
        else sp1
      sp2.user_step uip dtime

/-- Processing of one line of parse_requests, including the unconditional
increment of the line id after the try block. -/
def SessionParser.parse_line (sp : SessionParser) (line : String) (delim : Char) :
    SessionParser :=
  let sp2 := sp.parse_line_body line delim
  { sp2 with line_id := sp2.line_id + 1 }

/-- SessionParser.parse_requests over a batch of lines. -/
def SessionParser.parse_requests (sp : SessionParser) (requests : List String)
    (delim : Char) : SessionParser :=
  requests.foldl (fun s line => s.parse_line line delim) sp

/-- Repeated calls to parse_requests on successive batches, as driven by
the line-buffer loop of the main block. -/
def ingestBatches (sp : SessionParser) (batches : List (List String)) (delim : Char) :
    SessionParser :=
  batches.foldl (fun s b => s.parse_requests b delim) sp

/-- Sum of the document counts of the users of an association list. -/
def sumDocsU (l : List (String × User)) : Nat :=
  (l.map fun p => p.2.num_docs).sum

/-- Sum of the document counts of a list of emitted records. -/
def sumDocsR (l : List SessionRec) : Nat :=
  (l.map SessionRec.num_docs).sum

/-- Sum of the document counts of a list of users. -/
def sumDocsL (l : List User) : Nat :=
  (l.map User.num_docs).sum

/-- Acceptance condition of __init__ on the fields argument. -/
def layout_accepted : Option FieldsArg → Bool
  | none => true
  | some fa => validFieldsArg fa

/-- Engine produced by construction with a valid user-supplied field
layout: identical to the default-construction state except that the
fields attribute was never assigned. -/
def mkCustom (inactivity_period : Int) : SessionParser :=
  { active_users := [], current_time := none, line_id := 0,
    inactivity_period := inactivity_period,
    fields := none, output := [], warnings := 0 }

/-- Conservation measure used for the no-data-loss property: documents
already written plus documents held by active sessions plus warnings. -/
def phi (sp : SessionParser) : Nat :=
  sumDocsR sp.output + sumDocsU sp.active_users + sp.warnings

/-- User for the eviction counterexample: one request at time 0. -/
def uGap : User :=
  { lid := 0, ip := "1.2.3.4", start_time := 0, latest_time := 0, num_docs := 1 }

/-- Engine state holding uGap with threshold 2 while the clock shows
86402, an elapsed time of 86402 seconds. -/
def spGap : SessionParser :=
  { active_users := [("1.2.3.4", uGap)], current_time := some 86402, line_id := 1,
    inactivity_period := 2, fields := some { ip := 0, date := 1, time := 2 },
    output := [], warnings := 0 }

/-- User for the eviction witness: one request at time 0, threshold 2,
clock at 10. -/
def uWit : User :=
  { lid := 0, ip := "9.9.9.9", start_time := 0, latest_time := 0, num_docs := 1 }

/-- Engine state holding uWit. -/
def spWit : SessionParser :=
  { active_users := [("9.9.9.9", uWit)], current_time := some 10, line_id := 1,
    inactivity_period := 2, fields := some { ip := 0, date := 1, time := 2 },
    output := [], warnings := 0 }

/-- User for the duration witness: start 0, latest 5. -/
def uDur : User :=
  { lid := 0, ip := "1.2.3.4", start_time := 0, latest_time := 5, num_docs := 2 }

/-- User for the update witness: start 3, latest 3. -/
def uUpd : User :=
  { lid := 0, ip := "1.2.3.4", start_time := 3, latest_time := 3, num_docs := 1 }

/-- Fields argument with all three positions valid integers. -/
def faValid : FieldsArg :=
  { ip := some (.int 3), date := some (.int 4), time := some (.int 5) }

/-- Strict version of the emission sort key order: sessions with
pairwise-distinct line ids are strictly ordered by (start_time, lid). -/
def keyLt (a b : User) : Prop :=
  a.start_time < b.start_time ∨ (a.start_time = b.start_time ∧ a.lid < b.lid)

instance : IsAntisymm User keyLt :=
  ⟨fun a b h1 h2 => by
    exfalso
    rcases h1 with h1 | ⟨h1e, h1l⟩ <;> rcases h2 with h2 | ⟨h2e, h2l⟩
    · exact absurd (h1.trans h2) (lt_irrefl _)
    · rw [h2e] at h1
      exact lt_irrefl _ h1
    · rw [h1e] at h2
      exact lt_irrefl _ h2
    · omega⟩

/-- User emitted at line 0, start time 5: tie on start_time with uEmitB. -/
def uEmitA : User :=
  { lid := 0, ip := "1.2.3.4", start_time := 5, latest_time := 6, num_docs := 1 }

/-- User emitted at line 1, start time 5: tie on start_time with uEmitA. -/
def uEmitB : User :=
  { lid := 1, ip := "5.6.7.8", start_time := 5, latest_time := 7, num_docs := 2 }

end Sessionization

namespace Sessionization

/-- C3: the claim asserts that duration() is 1 plus the floor of
latest_time - start_time in seconds for every session. The code computes
1 plus the seconds attribute of the timedelta, which is the elapsed time
modulo 86400: a session legitimately spanning exactly one day (update
with a time 86400 seconds after the start is accepted) has elapsed time
86400 but duration 1, not 86401. -/
theorem session_length_day_counterexample :
    ((User.create 0 "1.2.3.4" 0).bind (fun v => v.update 86400)).map
        (fun u => (u.latest_time - u.start_time, u.session_length)) =
      some (86400, 1) ∧ (1 : Int) ≠ 1 + 86400 := by decide

/-- C3 (amended): duration() is 1 plus the elapsed seconds modulo 86400
(the seconds attribute of the Python timedelta), it is always at least 1,
and for sessions whose elapsed time is a non-negative amount below one
day it coincides with 1 plus the elapsed seconds. -/
theorem session_length_formula (u : User) :
    u.session_length = 1 + timedelta_seconds (u.latest_time - u.start_time) ∧
    1 ≤ u.session_length ∧
    (0 ≤ u.latest_time - u.start_time → u.latest_time - u.start_time < 86400 →
      u.session_length = 1 + (u.latest_time - u.start_time)) := by
  refine ⟨rfl, ?_, ?_⟩
  · have h : 0 ≤ (u.latest_time - u.start_time) % 86400 :=
      Int.emod_nonneg _ (by norm_num)
    simp only [User.session_length, timedelta_seconds]
    omega
  · intro h1 h2
    simp only [User.session_length, timedelta_seconds]
    rw [Int.emod_eq_of_lt h1 h2]

/-- Witness for the amended duration formula at a concrete session of
elapsed time 5 seconds. -/
theorem session_length_formula_witness :
    uDur.session_length = 1 + (uDur.latest_time - uDur.start_time) :=
  (session_length_formula uDur).2.2 (by decide) (by decide)

/-- C8: the claim asserts construction fails when threshold_seconds is
not a non-negative integer. The code converts the threshold with int(),
which accepts every integer: construction with threshold -1 succeeds. -/
theorem init_negative_threshold_counterexample :
    SessionParser.init (-1) none = .ok (mkDefault (-1)) ∧ (-1 : Int) < 0 :=
  ⟨rfl, by decide⟩

/-- C8 (amended): over integer thresholds, construction never fails on
the threshold (negative integers are accepted and stored); it fails
exactly when the supplied field layout omits one of the keys ip, date,
time or maps one of them to a non-integer, and on success a non-negative
threshold was not required. -/
theorem init_accepts_iff_layout (thr : Int) (fieldsArg : Option FieldsArg) :
    ((∃ sp, SessionParser.init thr fieldsArg = .ok sp) ↔
      layout_accepted fieldsArg = true) ∧
    SessionParser.init thr none = .ok (mkDefault thr) ∧
    (mkDefault thr).inactivity_period = thr := by
  refine ⟨?_, rfl, rfl⟩
  cases fieldsArg with
  | none =>
    constructor
    · intro _
      rfl
    · intro _
      exact ⟨mkDefault thr, rfl⟩
  | some fa =>
    by_cases h : validFieldsArg fa = true
    · constructor
      · intro _
        simpa [layout_accepted] using h
      · intro _
        refine ⟨mkCustom thr, ?_⟩
        simp [SessionParser.init, h, mkCustom]
    · constructor
      · rintro ⟨sp, hsp⟩
        simp [SessionParser.init, h] at hsp
      · intro hc
        exact absurd (by simpa [layout_accepted] using hc) h

/-- C9: the claim asserts latest_time is monotonically non-decreasing
across accepted updates. The code only rejects updates earlier than
start_time: an update at time 150 after an update at time 200 (both after
start 100) is accepted and decreases latest_time from 200 to 150. -/
theorem update_not_monotone_counterexample :
    (((User.create 0 "1.2.3.4" 100).bind (fun u => u.update 200)).map
        User.latest_time = some 200) ∧
    ((((User.create 0 "1.2.3.4" 100).bind (fun u => u.update 200)).bind
        (fun u => u.update 150)).map User.latest_time = some 150) ∧
    (150 : Int) < 200 := by decide

/-- C9 (amended): update(new_time) fails exactly when new_time is
strictly earlier than start_time (the failing call changes nothing), and
an accepted update stores new_time as latest_time, keeps start_time,
increments doc_count, and keeps latest_time at or after start_time;
latest_time is monotone only when the sequence of accepted update times
is itself non-decreasing. -/
theorem update_rejects_iff_before_start (u : User) (t : Int) :
    (u.update t = none ↔ t < u.start_time) ∧
    (∀ u2, u.update t = some u2 →
      u2.start_time = u.start_time ∧ u2.latest_time = t ∧
      u2.num_docs = u.num_docs + 1 ∧ u2.start_time ≤ u2.latest_time) := by
  constructor
  · simp only [User.update]
    split
    · simp_all
    · simp_all
  · intro u2 h
    simp only [User.update] at h
    split at h
    · cases h
    · rename_i hge
      cases h
      push_neg at hge
      exact ⟨rfl, rfl, rfl, hge⟩

/-- C1: the claim asserts a session is evicted iff the elapsed time from
latest_time to current_time in integral seconds exceeds the threshold.
The code compares the seconds attribute of the timedelta, which is the
elapsed time modulo 86400: with threshold 2, a session last active 86402
seconds ago (one day and two seconds) is kept and nothing is emitted,
although 86402 is strictly greater than 2. -/
theorem eviction_day_gap_counterexample :
    spGap.inactivity_period < 86402 - uGap.latest_time ∧
    (spGap.detect_terminated_sessions 86402).active_users = [("1.2.3.4", uGap)] ∧
    (spGap.detect_terminated_sessions 86402).output = [] := by decide

/-- C1 (amended): the eviction pass removes (and emits) a session iff
the elapsed time from its latest_time to current_time taken modulo 86400
(the seconds attribute of the Python timedelta) strictly exceeds the
threshold; for same-client gaps of less than one day this coincides with
the elapsed seconds, so a gap of exactly the threshold keeps one session
while a gap of threshold + 1 (below one day) starts a new one. -/
theorem eviction_uses_mod_86400 (sp : SessionParser) (ct : Int) (ip : String) (u : User)
    (h : (ip, u) ∈ sp.active_users) :
    (((ip, u) ∈ (sp.detect_terminated_sessions ct).active_users ↔
      ¬ sp.inactivity_period < timedelta_seconds (ct - u.latest_time)) ∧
    (sp.inactivity_period < timedelta_seconds (ct - u.latest_time) →
      u.session_info ∈ (sp.detect_terminated_sessions ct).output)) ∧
    (0 ≤ sp.inactivity_period → sp.inactivity_period + 1 < 86400 →
      session_expired sp.inactivity_period
          (u.latest_time + sp.inactivity_period) u = false ∧
      session_expired sp.inactivity_period
          (u.latest_time + sp.inactivity_period + 1) u = true) := by
  refine ⟨?_, ?_⟩
  swap
  · intro hp hlt
    constructor
    · simp only [session_expired, timedelta_seconds, decide_eq_false_iff_not, not_lt]
      omega
    · simp only [session_expired, timedelta_seconds, decide_eq_true_eq]
      omega
  constructor
  · simp [SessionParser.detect_terminated_sessions, SessionParser.write_session_info,
      List.mem_filter, session_expired, h]
  · intro hexp
    have hmem : (ip, u) ∈ sp.active_users.filter
        (fun p => session_expired sp.inactivity_period ct p.2) := by
      rw [List.mem_filter]
      exact ⟨h, by simpa [session_expired] using hexp⟩
    have hmem2 : u ∈ (sp.active_users.filter
        (fun p => session_expired sp.inactivity_period ct p.2)).map Prod.snd :=
      List.mem_map_of_mem Prod.snd hmem
    have hmem3 : u ∈ sortSessions ((sp.active_users.filter
        (fun p => session_expired sp.inactivity_period ct p.2)).map Prod.snd) := by
      rw [sortSessions]
      exact (List.perm_insertionSort keyLe _).mem_iff.mpr hmem2
    have hmem4 : u.session_info ∈ (sortSessions ((sp.active_users.filter
        (fun p => session_expired sp.inactivity_period ct p.2)).map Prod.snd)).map
          User.session_info :=
      List.mem_map_of_mem User.session_info hmem3
    simp only [SessionParser.detect_terminated_sessions, SessionParser.write_session_info,
      List.mem_append]
    exact Or.inr hmem4

/-- Witness for the amended eviction characterization: a session last
active 10 seconds before the clock, threshold 2, is removed and emitted. -/
theorem eviction_uses_mod_86400_witness :
    ((("9.9.9.9", uWit) ∈ (spWit.detect_terminated_sessions 10).active_users ↔
      ¬ spWit.inactivity_period < timedelta_seconds (10 - uWit.latest_time)) ∧
    (spWit.inactivity_period < timedelta_seconds (10 - uWit.latest_time) →
      uWit.session_info ∈ (spWit.detect_terminated_sessions 10).output)) ∧
    (0 ≤ spWit.inactivity_period → spWit.inactivity_period + 1 < 86400 →
      session_expired spWit.inactivity_period
          (uWit.latest_time + spWit.inactivity_period) uWit = false ∧
      session_expired spWit.inactivity_period
          (uWit.latest_time + spWit.inactivity_period + 1) uWit = true) :=
  eviction_uses_mod_86400 spWit 10 "9.9.9.9" uWit (by decide)

/-- C2: the claim asserts that every failing line leaves active_sessions
and current_time exactly as they were. A first line with a valid
timestamp but a malformed client key fails (one diagnostic is emitted),
yet current_time has already been advanced from unset to the parsed
timestamp before the client-key validation raises. -/
theorem failed_line_mutates_clock_counterexample :
    ((mkDefault 2).parse_line "1.2.3,2017-06-30,00:00:00" ',').warnings
        = (mkDefault 2).warnings + 1 ∧
    (mkDefault 2).current_time = none ∧
    ((mkDefault 2).parse_line "1.2.3,2017-06-30,00:00:00" ',').current_time
        = some 63634377600 := by decide

/-- Line id is unchanged by the create-or-update step. -/
theorem user_step_line_id (sp : SessionParser) (uip : String) (dtime : Int) :
    (sp.user_step uip dtime).line_id = sp.line_id := by
  unfold SessionParser.user_step
  split
  · split
    · rfl
    · rfl
  · split
    · rfl
    · rfl

/-- Line id is unchanged by the try-block body; it is incremented once
after it. -/
theorem parse_line_body_line_id (sp : SessionParser) (line : String) (delim : Char) :
    (sp.parse_line_body line delim).line_id = sp.line_id := by
  unfold SessionParser.parse_line_body
  split
  · rfl
  · split
    · rfl
    · simp only [user_step_line_id]
      split
      · rfl
      · rfl

/-- C2 (amended): a line that fails during splitting, field extraction or
timestamp parsing (missing column, malformed date) leaves active_sessions
and current_time exactly as they were, emits one diagnostic and continues
(the line counter advances by one); a line that fails later, in
client-key validation or because the update time precedes the session
start, also emits one diagnostic and continues, but by then current_time
has already been advanced (and an eviction pass may have run), and those
mutations persist; no failure aborts ingestion, whose line counter always
advances by exactly one per line. -/
theorem extraction_failure_skips :
    (∀ (sp : SessionParser) (f : Fields) (line : String) (delim : Char),
      sp.fields = some f → extract_record f delim line = none →
      sp.parse_line line delim =
        { sp with line_id := sp.line_id + 1, warnings := sp.warnings + 1 }) ∧
    (∀ (sp : SessionParser) (line : String) (delim : Char),
      (sp.parse_line line delim).line_id = sp.line_id + 1) := by
  constructor
  · intro sp f line delim hf he
    simp [SessionParser.parse_line, SessionParser.parse_line_body, hf, he,
      SessionParser.warn]
  · intro sp line delim
    simp [SessionParser.parse_line, parse_line_body_line_id]

/-- Witness for the skip behaviour: a line with a missing column on the
fresh default engine is skipped with one diagnostic and no state change. -/
theorem extraction_failure_skips_witness :
    (mkDefault 2).parse_line "garbage" ',' =
      { mkDefault 2 with line_id := (mkDefault 2).line_id + 1,
                         warnings := (mkDefault 2).warnings + 1 } :=
  extraction_failure_skips.1 (mkDefault 2) { ip := 0, date := 1, time := 2 }
    "garbage" ',' rfl rfl

/-- C7: the claim asserts an eviction pass is invoked iff the
integral-second delta from the previous current_time is strictly
positive. The code tests the seconds attribute of the delta timedelta,
which is the delta modulo 86400: for a record exactly one day after the
previous one the delta is 86400 > 0, yet no eviction pass runs — on a
concrete two-record run with threshold 2 nothing is emitted and both
records land in one session, although an invoked pass (even with the
modulo expiry test of the code) would have evicted the stale session. -/
theorem eviction_trigger_day_counterexample :
    eviction_triggered (some 63634377600) 63634464000 = false ∧
    (0 : Int) < 63634464000 - 63634377600 ∧
    ((mkDefault 2).parse_requests
        ["1.2.3.4,2017-06-30,00:00:00", "1.2.3.4,2017-07-01,00:00:00"] ',').output = [] ∧
    sumDocsU ((mkDefault 2).parse_requests
        ["1.2.3.4,2017-06-30,00:00:00", "1.2.3.4,2017-07-01,00:00:00"] ',').active_users
      = 2 := by decide

/-- C7 (amended): during ingest, for a successfully extracted record the
eviction pass is invoked iff the delta from the previous current_time to
the record's timestamp, taken modulo 86400 (the seconds attribute of the
Python timedelta), is strictly positive — never for the first record and
never for a record sharing the previous record's timestamp — and when
invoked it runs with current_time already set to this record's timestamp,
before this record's session create/update is applied. -/
theorem eviction_trigger_mod_86400 (sp : SessionParser) (f : Fields) (line : String)
    (delim : Char) (uip : String) (dtime : Int)
    (hf : sp.fields = some f) (he : extract_record f delim line = some (uip, dtime)) :
    (sp.parse_line line delim =
      (let sp1 : SessionParser := { sp with current_time := some dtime }
       let sp2 := if eviction_triggered sp.current_time dtime then
          sp1.detect_terminated_sessions dtime else sp1
       let sp3 := sp2.user_step uip dtime
       { sp3 with line_id := sp3.line_id + 1 })) ∧
    eviction_triggered none dtime = false ∧
    (∀ ct : Int, eviction_triggered (some ct) dtime
        = decide (0 < (dtime - ct) % 86400)) ∧
    eviction_triggered (some dtime) dtime = false := by
  refine ⟨?_, rfl, fun ct => rfl, ?_⟩
  · simp [SessionParser.parse_line, SessionParser.parse_line_body, hf, he]
  · simp [eviction_triggered, timedelta_seconds]

/-- Witness for the amended trigger characterization at a concrete
record 60 seconds after the previous current_time. -/
theorem eviction_trigger_mod_86400_witness :
    eviction_triggered (some 63634377540) 63634377600
      = decide (0 < ((63634377600 : Int) - 63634377540) % 86400) :=
  (eviction_trigger_mod_86400 (mkDefault 2) { ip := 0, date := 1, time := 2 }
    "1.2.3.4,2017-06-30,00:00:00" ',' "1.2.3.4" 63634377600 rfl rfl).2.2.1 63634377540

/-- Witness for the amended update characterization: a concrete accepted
update at time 7 on a session started at time 3. -/
theorem update_rejects_iff_before_start_witness :
    ({ uUpd with latest_time := 7, num_docs := uUpd.num_docs + 1 } : User).start_time
        = uUpd.start_time ∧
    ({ uUpd with latest_time := 7, num_docs := uUpd.num_docs + 1 } : User).latest_time = 7 ∧
    ({ uUpd with latest_time := 7, num_docs := uUpd.num_docs + 1 } : User).num_docs
        = uUpd.num_docs + 1 ∧
    ({ uUpd with latest_time := 7, num_docs := uUpd.num_docs + 1 } : User).start_time ≤
      ({ uUpd with latest_time := 7, num_docs := uUpd.num_docs + 1 } : User).latest_time :=
  (update_rejects_iff_before_start uUpd 7).2
    { uUpd with latest_time := 7, num_docs := uUpd.num_docs + 1 } (by decide)

/-- Skip behaviour of a line when the fields attribute was never
assigned: the attribute access raises, the line warns, and only line id
and warning count change. -/
theorem parse_line_no_fields (sp : SessionParser) (line : String) (delim : Char)
    (h : sp.fields = none) :
    sp.parse_line line delim =
      { sp with line_id := sp.line_id + 1, warnings := sp.warnings + 1 } := by
  simp [SessionParser.parse_line, SessionParser.parse_line_body, h, SessionParser.warn]

/-- Iterated skip behaviour over a whole batch when the fields attribute
was never assigned. -/
theorem parse_requests_no_fields (lines : List String) (sp : SessionParser) (delim : Char)
    (h : sp.fields = none) :
    sp.parse_requests lines delim =
      { sp with line_id := sp.line_id + lines.length,
                warnings := sp.warnings + lines.length } := by
  induction lines generalizing sp with
  | nil => rfl
  | cons l ls ih =>
    show ((sp.parse_line l delim).parse_requests ls delim) = _
    rw [parse_line_no_fields sp l delim h,
      ih { sp with line_id := sp.line_id + 1, warnings := sp.warnings + 1 } h]
    simp only [List.length_cons]
    congr 1 <;> omega

/-- C10: constructing the engine with a fully valid non-None field
layout succeeds, but the layout is never stored (the fields attribute
remains unset), so every line of every subsequent ingest call fails
field extraction and is skipped with one diagnostic: no session is ever
created or updated, nothing is ever emitted. -/
theorem custom_layout_never_stored (thr : Int) (fa : FieldsArg)
    (h : validFieldsArg fa = true) (lines : List String) (delim : Char) :
    SessionParser.init thr (some fa) = .ok (mkCustom thr) ∧
    (mkCustom thr).fields = none ∧
    (mkCustom thr).parse_requests lines delim =
      { mkCustom thr with line_id := lines.length, warnings := lines.length } ∧
    ((mkCustom thr).parse_requests lines delim).active_users = [] ∧
    ((mkCustom thr).parse_requests lines delim).output = [] := by
  have hinit : SessionParser.init thr (some fa) = .ok (mkCustom thr) := by
    simp [SessionParser.init, h, mkCustom]
  have hpr := parse_requests_no_fields lines (mkCustom thr) delim rfl
  refine ⟨hinit, rfl, ?_, ?_, ?_⟩
  · simpa [mkCustom] using hpr
  · rw [hpr]
    rfl
  · rw [hpr]
    rfl

/-- Witness for the unstored-layout behaviour: a valid layout and one
well-formed line, which is nevertheless skipped. -/
theorem custom_layout_never_stored_witness :
    SessionParser.init 2 (some faValid) = .ok (mkCustom 2) ∧
    (mkCustom 2).fields = none ∧
    (mkCustom 2).parse_requests ["1.2.3.4,2017-06-30,00:00:00"] ',' =
      { mkCustom 2 with line_id := 1, warnings := 1 } ∧
    ((mkCustom 2).parse_requests ["1.2.3.4,2017-06-30,00:00:00"] ',').active_users = [] ∧
    ((mkCustom 2).parse_requests ["1.2.3.4,2017-06-30,00:00:00"] ',').output = [] :=
  custom_layout_never_stored 2 faValid (by decide) ["1.2.3.4,2017-06-30,00:00:00"] ','

/-- C5: ingesting any ordered partition of the input into batches, in
order, produces the same engine state as ingesting all lines in one
call, and hence (after the final flush) identical emitted output: batch
boundaries are transparent to session detection and emission. -/
theorem batch_boundaries_transparent (sp : SessionParser) (batches : List (List String))
    (delim : Char) :
    ingestBatches sp batches delim = sp.parse_requests batches.flatten delim ∧
    (ingestBatches sp batches delim).terminate_remaining_sessions.output =
      (sp.parse_requests batches.flatten delim).terminate_remaining_sessions.output := by
  have h : ingestBatches sp batches delim = sp.parse_requests batches.flatten delim := by
    simp [ingestBatches, SessionParser.parse_requests, List.foldl_flatten]
  exact ⟨h, by rw [h]⟩

/-- C6: for every batch of sessions handed to the emission routine, the
records are appended to the sink in the order of the sessions sorted
ascending by the key (start_time, line_id) — start_time primary, line_id
as tie-break — and, for batches whose line ids are pairwise distinct (as
holds for every batch formed by eviction or by the final flush, since
each session is created at a distinct line), the emitted sequence is the
same for every ordering of the batch: the output does not depend on the
iteration order of the active-session map. -/
theorem emission_sorted_deterministic (sp : SessionParser) (sessions sessions2 : List User)
    (hperm : sessions.Perm sessions2)
    (hdist : sessions.Pairwise fun a b => a.lid ≠ b.lid) :
    (sp.write_session_info sessions).output =
        sp.output ++ (sortSessions sessions).map User.session_info ∧
    (sortSessions sessions).Sorted keyLe ∧
    (sortSessions sessions).Perm sessions ∧
    sp.write_session_info sessions = sp.write_session_info sessions2 := by
  have hperm1 : (sortSessions sessions).Perm sessions := List.perm_insertionSort keyLe _
  have hperm2 : (sortSessions sessions2).Perm sessions2 := List.perm_insertionSort keyLe _
  refine ⟨rfl, List.sorted_insertionSort keyLe sessions, hperm1, ?_⟩
  have hdist2 : sessions2.Pairwise fun a b => a.lid ≠ b.lid :=
    ((hperm.pairwise_iff fun h => h.symm).mp) hdist
  have strict : ∀ l : List User, (l.Pairwise fun a b => a.lid ≠ b.lid) →
      (sortSessions l).Sorted keyLt := by
    intro l hl
    have hs : (sortSessions l).Sorted keyLe := List.sorted_insertionSort keyLe l
    have hd : (sortSessions l).Pairwise fun a b => a.lid ≠ b.lid :=
      (((List.perm_insertionSort keyLe l).pairwise_iff fun h => h.symm).mpr) hl
    refine (hs.and hd).imp ?_
    rintro a b ⟨hab, hne⟩
    rcases hab with h | ⟨he, hle⟩
    · exact Or.inl h
    · exact Or.inr ⟨he, lt_of_le_of_ne hle hne⟩
  have key : sortSessions sessions = sortSessions sessions2 :=
    List.eq_of_perm_of_sorted (hperm1.trans (hperm.trans hperm2.symm))
      (strict sessions hdist) (strict sessions2 hdist2)
  show ({ sp with output := sp.output ++ (sortSessions sessions).map User.session_info }
      : SessionParser) = { sp with output := sp.output ++ (sortSessions sessions2).map User.session_info }
  rw [key]

/-- Witness for the emission contract: two sessions sharing a start time
handed in either order produce the same emitted sequence, ordered by
line id. -/
theorem emission_sorted_deterministic_witness :
    (mkDefault 2).write_session_info [uEmitB, uEmitA] =
      (mkDefault 2).write_session_info [uEmitA, uEmitB] :=
  (emission_sorted_deterministic (mkDefault 2) [uEmitB, uEmitA] [uEmitA, uEmitB]
    (List.Perm.swap uEmitA uEmitB []) (by decide)).2.2.2

/-- Sum of document counts is invariant under permutation. -/
theorem sumDocsL_perm {l1 l2 : List User} (h : l1.Perm l2) : sumDocsL l1 = sumDocsL l2 :=
  (h.map User.num_docs).sum_eq

/-- Sum of document counts over appended record lists. -/
theorem sumDocsR_append (l1 l2 : List SessionRec) :
    sumDocsR (l1 ++ l2) = sumDocsR l1 + sumDocsR l2 := by
  simp [sumDocsR]

/-- Each emitted record carries the document count of its session. -/
theorem sumDocsR_map_info (l : List User) :
    sumDocsR (l.map User.session_info) = sumDocsL l := by
  have hc : SessionRec.num_docs ∘ User.session_info = User.num_docs := rfl
  simp only [sumDocsR, sumDocsL, List.map_map, hc]

/-- Splitting active sessions by a predicate splits the document sum. -/
theorem sumDocsU_filter_split (p : String × User → Bool) (l : List (String × User)) :
    sumDocsU (l.filter p) + sumDocsU (l.filter fun x => ! p x) = sumDocsU l := by
  induction l with
  | nil => rfl
  | cons x xs ih =>
    cases h : p x
    · simp [List.filter_cons, h, sumDocsU] at ih ⊢
      omega
    · simp [List.filter_cons, h, sumDocsU] at ih ⊢
      omega

/-- Mapping to the user component preserves the document sum. -/
theorem sumDocsL_map_snd (l : List (String × User)) :
    sumDocsL (l.map Prod.snd) = sumDocsU l := by
  have hc : User.num_docs ∘ Prod.snd = fun p : String × User => p.2.num_docs := rfl
  simp only [sumDocsL, sumDocsU, List.map_map, hc]

/-- Replacing the user stored under a key changes the document sum by
the difference of the two counts. -/
theorem sumDocsU_updateUser (l : List (String × User)) (k : String) (u u2 : User)
    (h : lookupUser l k = some u) :
    sumDocsU (updateUser l k u2) + u.num_docs = sumDocsU l + u2.num_docs := by
  induction l with
  | nil => cases h
  | cons x xs ih =>
    obtain ⟨kx, ux⟩ := x
    by_cases hk : kx = k
    · simp only [lookupUser, hk, if_true, Option.some.injEq] at h
      simp only [updateUser, hk, if_true, sumDocsU, List.map_cons, List.sum_cons, h]
      omega
    · simp only [lookupUser, hk, if_false] at h
      simp only [updateUser, hk, if_false, sumDocsU, List.map_cons, List.sum_cons]
      have := ih h
      simp only [sumDocsU] at this
      omega

/-- Writing a batch of sessions adds exactly their document count to the
measure. -/
theorem phi_write (sp : SessionParser) (l : List User) :
    phi (sp.write_session_info l) = phi sp + sumDocsL l := by
  have hperm : sumDocsL (sortSessions l) = sumDocsL l :=
    sumDocsL_perm (List.perm_insertionSort keyLe l)
  simp only [phi, SessionParser.write_session_info, sumDocsR_append, sumDocsR_map_info, hperm]
  omega

/-- The eviction pass moves documents from active sessions to the output
without changing the measure. -/
theorem phi_detect (sp : SessionParser) (ct : Int) :
    phi (sp.detect_terminated_sessions ct) = phi sp := by
  unfold SessionParser.detect_terminated_sessions
  rw [phi_write]
  have hsplit := sumDocsU_filter_split
    (fun p => session_expired sp.inactivity_period ct p.2) sp.active_users
  simp only [phi, sumDocsL_map_snd]
  omega

/-- The create-or-update step accounts for exactly one document, whether
it updates a session, creates one, or fails with a warning. -/
theorem phi_user_step (sp : SessionParser) (uip : String) (dtime : Int) :
    phi (sp.user_step uip dtime) = phi sp + 1 := by
  cases hl : lookupUser sp.active_users uip with
  | some u =>
    cases hu : u.update dtime with
    | some u2 =>
      have hdocs : u2.num_docs = u.num_docs + 1 := by
        simp only [User.update] at hu
        split at hu
        · cases hu
        · cases hu
          rfl
      have hsum := sumDocsU_updateUser sp.active_users uip u u2 hl
      simp only [SessionParser.user_step, hl, hu, phi]
      omega
    | none =>
      simp only [SessionParser.user_step, hl, hu, SessionParser.warn, phi]
      omega
  | none =>
    cases hc : User.create sp.line_id uip dtime with
    | some u =>
      have hdocs : u.num_docs = 1 := by
        simp only [User.create] at hc
        split at hc
        · cases hc
          rfl
        · cases hc
      simp only [SessionParser.user_step, hl, hc, phi, sumDocsU, List.map_append,
        List.sum_append, List.map_cons, List.sum_cons, List.map_nil, List.sum_nil, hdocs]
      omega
    | none =>
      simp only [SessionParser.user_step, hl, hc, SessionParser.warn, phi]
      omega

/-- Each ingested line accounts for exactly one unit of the measure: one
document on success, one warning on failure. -/
theorem phi_parse_line (sp : SessionParser) (line : String) (delim : Char) :
    phi (sp.parse_line line delim) = phi sp + 1 := by
  show phi (sp.parse_line_body line delim) = phi sp + 1
  cases hf : sp.fields with
  | none =>
    simp only [SessionParser.parse_line_body, hf, SessionParser.warn, phi]
    omega
  | some f =>
    cases he : extract_record f delim line with
    | none =>
      simp only [SessionParser.parse_line_body, hf, he, SessionParser.warn, phi]
      omega
    | some r =>
      obtain ⟨uip, dtime⟩ := r
      simp only [SessionParser.parse_line_body, hf, he]
      rw [phi_user_step]
      cases ht : eviction_triggered sp.current_time dtime
      · simp [ht, phi]
      · rw [if_pos rfl, phi_detect]
        rfl

/-- Ingesting a batch of n lines raises the measure by exactly n. -/
theorem phi_parse_requests (lines : List String) (sp : SessionParser) (delim : Char) :
    phi (sp.parse_requests lines delim) = phi sp + lines.length := by
  induction lines generalizing sp with
  | nil => rfl
  | cons l ls ih =>
    show phi ((sp.parse_line l delim).parse_requests ls delim) = _
    rw [ih, phi_parse_line]
    simp only [List.length_cons]
    omega

/-- The final flush empties the active set and preserves the measure. -/
theorem phi_terminate (sp : SessionParser) :
    phi sp.terminate_remaining_sessions = phi sp ∧
    sp.terminate_remaining_sessions.active_users = [] := by
  constructor
  · unfold SessionParser.terminate_remaining_sessions
    rw [phi_write]
    simp only [phi, sumDocsL_map_snd, sumDocsU, List.map_nil, List.sum_nil]
    omega
  · rfl

/-- C4: for every finite input and every threshold, after ingesting all
lines and calling the final flush, the sum of doc_count over all emitted
sessions plus the number of skipped lines (one diagnostic each) equals
the total number of input lines — that is, the sum equals the number of
successfully parsed lines — and no session is left active, so none still
active at end of stream is dropped. -/
theorem no_data_loss (thr : Int) (lines : List String) (delim : Char) :
    sumDocsR (((mkDefault thr).parse_requests lines delim).terminate_remaining_sessions).output
        + (((mkDefault thr).parse_requests lines delim).terminate_remaining_sessions).warnings
      = lines.length ∧
    (((mkDefault thr).parse_requests lines delim).terminate_remaining_sessions).active_users
      = [] := by
  have h1 := phi_parse_requests lines (mkDefault thr) delim
  have h2 := phi_terminate ((mkDefault thr).parse_requests lines delim)
  refine ⟨?_, h2.2⟩
  have hphi0 : phi (mkDefault thr) = 0 := rfl
  have hfin : phi (((mkDefault thr).parse_requests lines delim).terminate_remaining_sessions)
      = lines.length := by
    rw [h2.1, h1, hphi0]
    omega
  have hact : sumDocsU ((((mkDefault thr).parse_requests
      lines delim).terminate_remaining_sessions).active_users) = 0 := by
    rw [h2.2]
    rfl
  simp only [phi, hact] at hfin
  omega

end Sessionization
